import Mathlib

/-!
Verification of the bernd_box OtaUpdater (over-the-air firmware update state
machine). The definitions below are a shallow embedding of
`OtaUpdater::handleCallback`, `OtaUpdater::TaskCallback`,
`OtaUpdater::OnTaskEnable`, `OtaUpdater::OnTaskDisable` and
`OtaUpdater::sendResult`. External collaborators (the Server, the HTTP
client, the Update flashing primitive, the BaseTask scheduler wrapper) are
represented by environment records whose fields stand for the values those
collaborators return during one call, and by events recording the calls the
updater makes into them.
-/

namespace BerndBox

/-! ### Exact binary32 arithmetic

`TaskCallback` computes the progress percentage in single-precision floating
point: `int percent = float(Update.progress()) / float(image_size_) * 100;`.
The functions below model IEEE-754 binary32 arithmetic (round to nearest,
ties to even) exactly, over mantissa/exponent pairs of natural numbers.
Overflow and subnormals cannot occur in the value range reached by the
progress computation and are not modelled. -/

/-- Fuel-bounded floor of the base-2 logarithm: largest k with 2^k ≤ n, and 0
for n = 0. Fuel 128 covers every value that fits in 128 bits, far beyond the
64-bit quantities handled here. -/
def natLog2F : Nat → Nat → Nat
  | 0, _ => 0
  | fuel + 1, n => if 2 ≤ n then natLog2F fuel (n / 2) + 1 else 0

/-- Round the fraction a / b (b > 0) to the nearest natural number, ties going
to the even neighbour: the rounding mode of IEEE-754 arithmetic. -/
def rne (a b : Nat) : Nat :=
  let q := a / b
  let r := a % b
  if 2 * r < b then q
  else if b < 2 * r then q + 1
  else if q % 2 = 0 then q else q + 1

/-- A nonnegative IEEE-754 binary32 value, exactly m * 2^e with m = 0 or
2^23 ≤ m < 2^24. -/
structure F32 where
  m : Nat
  e : Int
deriving DecidableEq, Repr

/-- Whether 2^t ≤ num / den, over naturals. -/
def fracGePow2 (num den : Nat) (t : Int) : Bool :=
  if 0 ≤ t then decide (den * 2 ^ t.toNat ≤ num)
  else decide (den ≤ num * 2 ^ (-t).toNat)

/-- Round (num / den) * 2^e to the nearest binary32 value (ties to even). -/
def f32ofFrac (num den : Nat) (e : Int) : F32 :=
  if num = 0 ∨ den = 0 then ⟨0, 0⟩
  else
    let a : Int := natLog2F 128 num
    let b : Int := natLog2F 128 den
    -- k is the exponent with 2^k ≤ (num/den)*2^e < 2^(k+1)
    let k : Int := if fracGePow2 num den (a - b) then a - b + e else a - b + e - 1
    let shift : Int := 23 - (k - e)
    let mant : Nat :=
      if 0 ≤ shift then rne (num * 2 ^ shift.toNat) den
      else rne num (den * 2 ^ (-shift).toNat)
    if mant = 2 ^ 24 then ⟨2 ^ 23, k - 22⟩ else ⟨mant, k - 23⟩

/-- Conversion of an unsigned integer to binary32 (rounded if above 2^24). -/
def F32.ofNat (n : Nat) : F32 := f32ofFrac n 1 0

/-- IEEE binary32 division (correctly rounded). -/
def F32.fdiv (x y : F32) : F32 := f32ofFrac x.m y.m (x.e - y.e)

/-- IEEE binary32 multiplication (correctly rounded). -/
def F32.fmul (x y : F32) : F32 := f32ofFrac (x.m * y.m) 1 (x.e + y.e)

/-- C float-to-int cast: truncation toward zero (all values cast here are
nonnegative). -/
def F32.toInt (x : F32) : Int :=
  if 0 ≤ x.e then (x.m * 2 ^ x.e.toNat : Nat) else (x.m / 2 ^ (-x.e).toNat : Nat)

/-- The percent computation of OtaUpdater::TaskCallback, line for line:
int percent = float(Update.progress()) / float(image_size_) * 100; -/
def percentCode (progress image_size : Nat) : Int :=
  (((F32.ofNat progress).fdiv (F32.ofNat image_size)).fmul (F32.ofNat 100)).toInt

/-! ### String constants of OtaUpdater (verbatim from the source) -/

def url_key_ : String := "url"
def image_size_key_ : String := "size"
def md5_hash_key_ : String := "md5"
def restart_key_ : String := "restart"
def status_start_ : String := "start"
def status_updating_ : String := "updating"
def status_finish_ : String := "finish"
def status_fail_ : String := "fail"
def failed_to_connect_error_ : String := "Failed to connect"
def connection_lost_error_ : String := "Connection lost"
def update_in_progress_error_ : String := "OTA update already running"
def http_code_error_ : String := "HTTP code: "

/-- OtaUpdater::type(), the component name "OtaUpdater". -/
def otaType : String := "OtaUpdater"

/-! ### Data model -/

/-- Modelled from the spec: ErrorStore::KeyType, the expected-type tag that
ErrorStore::genMissingProperty embeds in a validation error. The source of
ErrorStore is not part of the given files; the spec names the types string,
unsigned integer and boolean. Only kString and kBool appear in the OtaUpdater
source. -/
inductive KeyType
  | kString
  | kUInt
  | kBool
deriving DecidableEq, Repr

/-- The detail payload of an outbound result message. Details built verbatim
inside the OtaUpdater source are carried as `text`; details produced by
external helpers keep the arguments the source passes to them:
`missingProperty` stands for ErrorStore::genMissingProperty(key, type),
`errorResult` for ErrorResult(who, msg).toString(), and `updateError` for
Update.errorString(). -/
inductive Detail
  | text (s : String)
  | missingProperty (key : String) (kt : KeyType)
  | errorResult (who : String) (msg : String)
  | updateError (s : String)
deriving DecidableEq, Repr

/-- The C++ source tests `detail.isEmpty()` on the rendered string. The
externally rendered details are error descriptions and are taken to be
nonempty. -/
def Detail.isEmptyText : Detail → Bool
  | .text s => s = ""
  | _ => false

/-- One outbound result document, as built by OtaUpdater::sendResult:
type "result", an optional request id, and a nested update object with a
status and an optional detail (the detail key is omitted when the detail
string is empty). -/
structure ResultMsg where
  requestId : Option String
  status : String
  detail : Option Detail
deriving DecidableEq, Repr

/-- A JSON field value, as seen through the ArduinoJson variant queries the
source performs (is<const char*>, is<size_t>, is<bool>). `null` is a missing
or null field, `other` any value of a different JSON type. -/
inductive JsonVal
  | null
  | str (s : String)
  | uint (n : Nat)
  | boolean (b : Bool)
  | other
deriving DecidableEq, Repr

def JsonVal.isStr : JsonVal → Bool
  | .str _ => true
  | _ => false

def JsonVal.asStr : JsonVal → String
  | .str s => s
  | _ => ""

def JsonVal.isUint : JsonVal → Bool
  | .uint _ => true
  | _ => false

def JsonVal.asUint : JsonVal → Nat
  | .uint n => n
  | _ => 0

def JsonVal.isBool : JsonVal → Bool
  | .boolean _ => true
  | _ => false

def JsonVal.asBool : JsonVal → Bool
  | .boolean b => b
  | _ => false

/-- The nested "update" object of an inbound command. -/
structure UpdateCmd where
  url : JsonVal
  size : JsonVal
  md5 : JsonVal
  restart : JsonVal
deriving DecidableEq, Repr

/-- An inbound message: the optional "update" object and the optional
"requestId" string (none when the key is missing or not a string, matching
as<const char*> returning nullptr). -/
structure Message where
  update : Option UpdateCmd
  requestId : Option String
deriving DecidableEq, Repr

/-- The mutable state of the OtaUpdater instance. `enabled` is the BaseTask
scheduling flag (periodic tick registered), `restarted` records that
esp_restart() was reached, `flashProgress` is Update.progress(), the byte
count the flashing primitive has accepted since Update.begin. -/
structure OtaState where
  is_updating : Bool
  request_id : String
  image_size : Nat
  restart : Bool
  last_percent_update : Int
  bufferSize : Nat
  flashProgress : Nat
  enabled : Bool
  restarted : Bool
deriving DecidableEq, Repr

/-- The state of a freshly constructed OtaUpdater: no session, sentinel -1
for the last reported percent. -/
def initState : OtaState :=
  { is_updating := false
    request_id := ""
    image_size := 0
    restart := false
    last_percent_update := -1
    bufferSize := 0
    flashProgress := 0
    enabled := false
    restarted := false }

/-- Environment of one handleCallback invocation: what the external
collaborators answer. `serverAvailable` is services_.getServer() != nullptr,
`connectOk` the return of client_.begin, `statusCode` the return of
client_.GET(). -/
structure HandleEnv where
  serverAvailable : Bool
  rootCas : String
  connectOk : Bool
  statusCode : Int
deriving DecidableEq, Repr

/-- Environment of one TaskCallback invocation. `streamValid` is
client_.getStreamPtr() != nullptr, `available` the stream->available() test,
`bytesRead` the return of stream->readBytes (bounded by the 4096-byte buffer
by that API), `flashEndOk` the return of Update.end(), `flashError` the text
of Update.errorString(). -/
structure TickEnv where
  streamValid : Bool
  available : Bool
  bytesRead : Nat
  flashEndOk : Bool
  flashError : String
  serverAvailable : Bool
deriving DecidableEq, Repr

/-- Calls the updater makes into its collaborators, in order. -/
inductive Event
  | resultSent (r : ResultMsg)
  | serialServerMissing
  | clientBegin (url : String) (withCert : Bool)
  | clientGET
  | clientEnd
  | flashSetMD5 (hash : String)
  | flashBegin (size : Nat)
  | flashWrite (n : Nat)
  | flashEnd
  | delayMs (n : Nat)
  | espRestart
deriving DecidableEq, Repr

/-! ### Operations -/

/-- OtaUpdater::sendResult. If the Server collaborator is unavailable the
failure goes to the serial diagnostic channel only. Otherwise one result
document is dispatched; the request id prefers a non-null override parameter
over the stored member and is omitted when the member is empty. -/
def sendResult (s : OtaState) (serverAvailable : Bool) (status : String)
    (detail : Detail) (override : Option String) : List Event :=
  if serverAvailable = false then [Event.serialServerMissing]
  else
    let rid : Option String :=
      match override with
      | some r => some r
      | none => if s.request_id = "" then none else some s.request_id
    [Event.resultSent
      { requestId := rid
        status := status
        detail := if detail.isEmptyText then none else some detail }]

/-- The tail of OtaUpdater::handleCallback shared by the TLS and the plain
branch: client_.begin (recorded with the certificate choice), the GET
request, and on a 200 response Update.setMD5, Update.begin(image_size_), the
"start" result and enable(). enable() synchronously runs OnTaskEnable, which
resizes the buffer to 4096 and sets is_updating_; the 50 ms unbounded
periodic tick of setInterval/setIterations is recorded in `enabled`
(modelled from the spec: BaseTask registers the periodic tick with the
cooperative scheduler). Update.begin starts the byte accounting at zero
(modelled from the spec: beginWriteSession(totalSize)). -/
def connectAndArm (s : OtaState) (env : HandleEnv) (url_str md5_str : String)
    (withCert : Bool) : OtaState × List Event :=
  if env.connectOk = false then
    (s, Event.clientBegin url_str withCert ::
      sendResult s env.serverAvailable status_fail_ (.text failed_to_connect_error_) none)
  else if env.statusCode ≠ 200 then
    (s, Event.clientBegin url_str withCert :: Event.clientGET ::
      sendResult s env.serverAvailable status_fail_
        (.errorResult otaType (http_code_error_ ++ toString env.statusCode)) none)
  else
    ({ s with flashProgress := 0, bufferSize := 4096, is_updating := true,
              enabled := true },
     Event.clientBegin url_str withCert :: Event.clientGET ::
       Event.flashSetMD5 md5_str :: Event.flashBegin s.image_size ::
       sendResult s env.serverAvailable status_start_ (.text "") none)

/-- OtaUpdater::handleCallback, transcribed branch for branch. A message
without an update key is a no-op. A running update rejects the command with
the new request id. Otherwise the stored request id is overwritten, then
url, size, md5 and restart are validated in order, the transport is chosen
by strcmp(url_str, "https") == 0, and the connection is opened. -/
def handleCallback (s : OtaState) (m : Message) (env : HandleEnv) :
    OtaState × List Event :=
  match m.update with
  | none => (s, [])
  | some cmd =>
    if s.is_updating then
      (s, sendResult s env.serverAvailable status_fail_
            (.text update_in_progress_error_) m.requestId)
    else
      let s1 := { s with request_id := m.requestId.getD "" }
      if cmd.url.isStr = false then
        (s1, sendResult s1 env.serverAvailable status_fail_
              (.missingProperty url_key_ .kString) none)
      else
        let url_str := cmd.url.asStr
        if cmd.size.isUint = false then
          (s1, sendResult s1 env.serverAvailable status_fail_
                (.missingProperty image_size_key_ .kString) none)
        else
          let s2 := { s1 with image_size := cmd.size.asUint }
          if cmd.md5.isStr = false then
            (s2, sendResult s2 env.serverAvailable status_fail_
                  (.missingProperty md5_hash_key_ .kString) none)
          else
            if cmd.restart.isBool = false then
              (s2, sendResult s2 env.serverAvailable status_fail_
                    (.missingProperty restart_key_ .kBool) none)
            else
              let s3 := { s2 with restart := cmd.restart.asBool }
              if url_str = "https" then
                if env.serverAvailable = false then
                  (s3, [Event.serialServerMissing])
                else
                  connectAndArm s3 env url_str cmd.md5.asStr true
              else
                connectAndArm s3 env url_str cmd.md5.asStr false

/-- OtaUpdater::OnTaskDisable. When restart_ is set the device sleeps 1500 ms
and calls esp_restart(), which never returns, so the resets below it are
skipped; otherwise the buffer is released, the request id cleared, the
percent sentinel restored and the updating flag cleared. -/
def onTaskDisable (s : OtaState) : OtaState × List Event :=
  if s.restart then
    ({ s with restarted := true }, [Event.delayMs 1500, Event.espRestart])
  else
    ({ s with bufferSize := 0, request_id := "", last_percent_update := -1,
              is_updating := false }, [])

/-- The progress-report block of OtaUpdater::TaskCallback: after a non-zero
read, compute the float percent and report it when the sentinel is set or it
advanced by at least 10. -/
def progressReport (s : OtaState) (serverAvailable : Bool) (bytes_read : Nat) :
    OtaState × List Event :=
  if bytes_read ≠ 0 then
    let percent := percentCode s.flashProgress s.image_size
    if s.last_percent_update < 0 ∨ s.last_percent_update + 10 ≤ percent then
      let s1 := { s with last_percent_update := percent }
      (s1, sendResult s1 serverAvailable status_updating_
             (.text ("\x7bdone:" ++ toString percent ++ "%\x7d")) none)
    else (s, [])
  else (s, [])

/-- The completion block of OtaUpdater::TaskCallback, reached when the
flashing primitive reports the image complete: the HTTP connection is
closed (client_.end()), Update.end() finalizes and verifies the hash, the
finish result (empty detail) or the fail result carrying Update.errorString()
is sent — a failed finalization clears restart_ — and disable() deregisters
the tick and runs OnTaskDisable. -/
def finishUpdate (s2 : OtaState) (env : TickEnv) : OtaState × List Event :=
  if env.flashEndOk then
    let td := onTaskDisable { s2 with enabled := false }
    (td.1, Event.clientEnd :: Event.flashEnd ::
      sendResult s2 env.serverAvailable status_finish_ (.text "") none ++ td.2)
  else
    let td := onTaskDisable { s2 with restart := false, enabled := false }
    (td.1, Event.clientEnd :: Event.flashEnd ::
      sendResult s2 env.serverAvailable status_fail_
        (.updateError env.flashError) none ++ td.2)

/-- OtaUpdater::TaskCallback together with its BaseTask wrapper. The BaseTask
sources are not among the given files; modelled from the spec: a tick whose
callback returns false, or that calls disable(), deregisters the periodic
tick and invokes OnTaskDisable (teardown). A vanished stream pointer emits
the connection-lost failure and ends the session. Otherwise available bytes
are read into the buffer and written to the flashing primitive, progress is
reported, and when the primitive reports the image complete (progress equal
to image_size, modelled from the spec: isComplete) finishUpdate runs. -/
def taskCallback (s : OtaState) (env : TickEnv) : OtaState × List Event :=
  if env.streamValid = false then
    let evs := sendResult s env.serverAvailable status_fail_
                 (.text connection_lost_error_) none
    let td := onTaskDisable { s with enabled := false }
    (td.1, evs ++ td.2)
  else if env.available then
    let s1 := { s with flashProgress := s.flashProgress + env.bytesRead }
    let pr := progressReport s1 env.serverAvailable env.bytesRead
    if s1.flashProgress = s1.image_size then
      let fin := finishUpdate pr.1 env
      (fin.1, Event.flashWrite env.bytesRead :: pr.2 ++ fin.2)
    else
      (pr.1, Event.flashWrite env.bytesRead :: pr.2)
  else
    (s, [])

/-- One external stimulus: an inbound message or one scheduler tick. -/
inductive Input
  | message (m : Message) (env : HandleEnv)
  | tick (env : TickEnv)

/-- One step of the system. After esp_restart the firmware is gone; the
scheduler invokes the tick callback only while the task is enabled. -/
def step (s : OtaState) (i : Input) : OtaState × List Event :=
  if s.restarted then (s, [])
  else
    match i with
    | .message m env => handleCallback s m env
    | .tick env => if s.enabled then taskCallback s env else (s, [])

/-- Run a list of stimuli from a state, collecting all events in order. -/
def run (s : OtaState) (is : List Input) : OtaState × List Event :=
  match is with
  | [] => (s, [])
  | i :: rest =>
    let r1 := step s i
    let r2 := run r1.1 rest
    (r2.1, r1.2 ++ r2.2)

/-! ### Definitions following the spec's words (for comparison with the code) -/

/-- Follows the spec's words: the percent the spec prescribes,
floor(bytes_written / image_size * 100), in exact arithmetic. -/
def specPercent (bytes_written image_size : Nat) : Int :=
  (100 * bytes_written) / image_size

/-- Follows the spec's words: a url whose scheme token denotes an encrypted
target. -/
def urlSchemeEncrypted (url : String) : Bool :=
  decide (url.data.take 8 = "https://".data)

/-- Follows the spec's words: the expected type of each validated field of an
update command (url string, image_size unsigned integer, content_hash string,
restart boolean). -/
def specExpectedKeyType (key : String) : KeyType :=
  if key = image_size_key_ then .kUInt
  else if key = restart_key_ then .kBool
  else .kString

end BerndBox


namespace BerndBox

/-! ### Concrete instances used by the claim theorems and witnesses -/

/-- An armed mid-download session whose command requested a restart. -/
def sessionRestartTrue : OtaState :=
  { is_updating := true, request_id := "r1", image_size := 1000,
    restart := true, last_percent_update := -1, bufferSize := 4096,
    flashProgress := 0, enabled := true, restarted := false }

/-- The same session with restart_intent false. -/
def sessionRestartFalse : OtaState :=
  { sessionRestartTrue with restart := false }

/-- A tick in which the stream pointer is gone. -/
def lostStreamEnv : TickEnv :=
  { streamValid := false, available := false, bytesRead := 0,
    flashEndOk := false, flashError := "", serverAvailable := true }

/-- A handleCallback environment where everything succeeds. -/
def goodConnectEnv : HandleEnv :=
  { serverAvailable := true, rootCas := "CA", connectOk := true,
    statusCode := 200 }

/-- A well-formed update command for a real https url. -/
def httpsUrlCmd : UpdateCmd :=
  { url := .str "https://example.com/fw.bin", size := .uint 1000,
    md5 := .str "abc123", restart := .boolean true }

def httpsUrlMessage : Message :=
  { update := some httpsUrlCmd, requestId := some "r1" }

/-- A well-formed update command whose url is the bare literal "https". -/
def httpsLiteralCmd : UpdateCmd :=
  { url := .str "https", size := .uint 1000, md5 := .str "abc123",
    restart := .boolean true }

def httpsLiteralMessage : Message :=
  { update := some httpsLiteralCmd, requestId := some "r1" }

/-- An update command whose size field is a boolean instead of an unsigned
integer. -/
def badSizeCmd : UpdateCmd :=
  { url := .str "http://h/f", size := .boolean true, md5 := .str "a",
    restart := .boolean true }

def badSizeMessage : Message :=
  { update := some badSizeCmd, requestId := some "r1" }

/-- An active session with stored request id "old". -/
def activeSession : OtaState :=
  { is_updating := true, request_id := "old", image_size := 500,
    restart := false, last_percent_update := 42, bufferSize := 4096,
    flashProgress := 100, enabled := true, restarted := false }

/-- A second, well-formed update command with request id "new". -/
def secondCommandCmd : UpdateCmd :=
  { url := .str "http://h/f", size := .uint 7, md5 := .str "a",
    restart := .boolean false }

def secondCommandMessage : Message :=
  { update := some secondCommandCmd, requestId := some "new" }

/-- An armed session downloading a 100-byte image, nothing reported yet. -/
def session100 : OtaState :=
  { is_updating := true, request_id := "r1", image_size := 100,
    restart := false, last_percent_update := -1, bufferSize := 4096,
    flashProgress := 0, enabled := true, restarted := false }

/-- A tick delivering 53 bytes. -/
def read53Env : TickEnv :=
  { streamValid := true, available := true, bytesRead := 53,
    flashEndOk := false, flashError := "", serverAvailable := true }

/-! ### Trace predicates for the flashing-primitive discipline -/

/-- Every write to the flashing primitive is strictly preceded in the trace
by a set-hash call and a begin call. -/
def WriteCovered (tr : List Event) : Prop :=
  ∀ l1 l2 n, tr = l1 ++ Event.flashWrite n :: l2 →
    (∃ h5, Event.flashSetMD5 h5 ∈ l1) ∧ ∃ sz, Event.flashBegin sz ∈ l1

/-- Every begin call on the flashing primitive immediately follows a
set-hash call. -/
def BeginAdjacent (tr : List Event) : Prop :=
  ∀ l1 l2 sz, tr = l1 ++ Event.flashBegin sz :: l2 →
    ∃ h5 l0, l1 = l0 ++ [Event.flashSetMD5 h5]

/-- The trace contains a set-hash call and a begin call. -/
def HashBeginIn (tr : List Event) : Prop :=
  (∃ h5, Event.flashSetMD5 h5 ∈ tr) ∧ ∃ sz, Event.flashBegin sz ∈ tr

/-- Invariant tying the updater state to its event trace: the trace is
well-formed and an armed task has already set hash and begun the session. -/
def FlashInv (s : OtaState) (tr : List Event) : Prop :=
  WriteCovered tr ∧ BeginAdjacent tr ∧ (s.enabled = true → HashBeginIn tr)

/-! ### Claim theorems -/

/-- C1: when the stream pointer is gone during a tick, exactly one fail
result with detail "Connection lost" is emitted — but the session does not
end without a device restart for every value of restart_intent: the code
never clears restart_ on this path, so with restart_intent true OnTaskDisable
sleeps 1500 ms and reaches esp_restart(). With restart_intent false the
claimed behaviour holds (teardown resets, no restart). -/
theorem c1_connection_loss_restart_bug :
    (taskCallback sessionRestartTrue lostStreamEnv =
      ({ sessionRestartTrue with enabled := false, restarted := true },
       [Event.resultSent ⟨some "r1", status_fail_, some (Detail.text connection_lost_error_)⟩,
        Event.delayMs 1500, Event.espRestart])) ∧
    (taskCallback sessionRestartFalse lostStreamEnv =
      ({ sessionRestartFalse with
          is_updating := false, request_id := "", bufferSize := 0,
          enabled := false },
       [Event.resultSent ⟨some "r1", status_fail_, some (Detail.text connection_lost_error_)⟩])) := by
  decide

/-- C4: the transport is not decided by the url's scheme token. The code
compares the entire url with the literal "https" (strcmp == 0), so a genuine
https url such as "https://example.com/fw.bin" is opened WITHOUT the
certificate bundle, while only the degenerate url "https" uses it. -/
theorem c4_scheme_ignored_bug :
    ((handleCallback initState httpsUrlMessage goodConnectEnv).2 =
      [Event.clientBegin "https://example.com/fw.bin" false,
       Event.clientGET, Event.flashSetMD5 "abc123", Event.flashBegin 1000,
       Event.resultSent ⟨some "r1", status_start_, none⟩]) ∧
    urlSchemeEncrypted "https://example.com/fw.bin" = true ∧
    ((handleCallback initState httpsLiteralMessage goodConnectEnv).2.head? =
      some (Event.clientBegin "https" true)) ∧
    urlSchemeEncrypted "https" = false := by
  decide

/-- C5: the validation error for a mistyped image_size does not name the
field's expected type. The check requires an unsigned integer (the is
size_t test), but the emitted fail result carries
genMissingProperty(image_size_key_, KeyType::kString), naming the string
type. -/
theorem c5_size_error_type_bug :
    (handleCallback initState badSizeMessage
      { serverAvailable := true, rootCas := "", connectOk := false,
        statusCode := 0 } =
      ({ initState with request_id := "r1" },
       [Event.resultSent ⟨some "r1", status_fail_,
          some (Detail.missingProperty image_size_key_ .kString)⟩])) ∧
    specExpectedKeyType image_size_key_ = .kUInt ∧
    KeyType.kString ≠ KeyType.kUInt := by
  decide

/-- C6 counterexample: the rejection of a second update command carries the
detail "OTA update already running", not "update already running" as the
claim states. The rest of the claimed behaviour (new request id, active
session unchanged in every field) is visible in the equation. -/
theorem c6_detail_counterexample :
    (handleCallback activeSession secondCommandMessage goodConnectEnv =
      (activeSession,
       [Event.resultSent ⟨some "new", status_fail_,
          some (Detail.text update_in_progress_error_)⟩])) ∧
    update_in_progress_error_ ≠ "update already running" := by
  decide

/-- C7 counterexample: a tick reading 53 bytes of a 100-byte image reports
the detail text for 52 percent, although floor(53 / 100 * 100) = 53: the
code computes the percent in binary32 floating point, which here rounds
below the exact value, so the emitted detail is not the claimed
percent text. -/
theorem c7_float_percent_counterexample :
    ((taskCallback session100 read53Env).2 =
      [Event.flashWrite 53,
       Event.resultSent ⟨some "r1", status_updating_,
         some (Detail.text "\x7bdone:52%\x7d")⟩]) ∧
    specPercent 53 100 = 53 ∧
    percentCode 53 100 = 52 ∧
    ("\x7bdone:52%\x7d" : String) ≠ "\x7bdone:53%\x7d" := by
  decide

/-- C9 counterexample: teardown of a session whose restart_intent is true
restarts the device BEFORE any reset: after OnTaskDisable the buffer is
still allocated, the request id still stored, the updating flag still set,
and the delay/esp_restart pair has run — refuting the claim that the resets
happen first and the restart only after them. -/
theorem c9_restart_before_resets_counterexample :
    onTaskDisable { sessionRestartTrue with enabled := false } =
      ({ sessionRestartTrue with enabled := false, restarted := true },
       [Event.delayMs 1500, Event.espRestart]) ∧
    ({ sessionRestartTrue with enabled := false, restarted := true } : OtaState).bufferSize = 4096 ∧
    ({ sessionRestartTrue with enabled := false, restarted := true } : OtaState).is_updating = true ∧
    ({ sessionRestartTrue with enabled := false, restarted := true } : OtaState).request_id = "r1" := by
  decide

/-- C10 counterexample: an update command arriving while a session is active
does NOT overwrite the stored request id — the rejection happens before the
overwrite — refuting the claim's universal "for every inbound command
carrying an update directive". -/
theorem c10_overwrite_counterexample :
    ((handleCallback activeSession secondCommandMessage goodConnectEnv).1.request_id = "old") ∧
    secondCommandMessage.requestId = some "new" ∧
    ("old" : String) ≠ "new" := by
  decide

end BerndBox

namespace BerndBox

/-- C6 amended: an update command received while a session is active leaves
the state unchanged in every field and (with the Server present) emits
exactly one fail result with detail "OTA update already running", tagged
with the new command's request id when the command carries one, falling back
to the active session's stored id (omitted if that is empty) when it does
not. -/
theorem c6_reject_while_active_amended (s : OtaState) (m : Message)
    (cmd : UpdateCmd) (env : HandleEnv) (hu : m.update = some cmd)
    (hr : s.is_updating = true) :
    (handleCallback s m env).1 = s ∧
    (env.serverAvailable = true →
      (handleCallback s m env).2 =
        [Event.resultSent
          ⟨(match m.requestId with
            | some r => some r
            | none => if s.request_id = "" then none else some s.request_id),
           status_fail_, some (Detail.text update_in_progress_error_)⟩]) := by
  refine ⟨?_, ?_⟩
  · simp [handleCallback, hu, hr]
  · intro hsrv
    simp +decide [handleCallback, hu, hr, sendResult, hsrv,
      update_in_progress_error_, Detail.isEmptyText]

/-- C6 witness: the amended rejection at a concrete active session and
command. -/
theorem c6_witness :
    (handleCallback activeSession secondCommandMessage goodConnectEnv).1 =
      activeSession ∧
    (goodConnectEnv.serverAvailable = true →
      (handleCallback activeSession secondCommandMessage goodConnectEnv).2 =
        [Event.resultSent
          ⟨(match secondCommandMessage.requestId with
            | some r => some r
            | none => if activeSession.request_id = "" then none
                      else some activeSession.request_id),
           status_fail_, some (Detail.text update_in_progress_error_)⟩]) :=
  c6_reject_while_active_amended activeSession secondCommandMessage
    secondCommandCmd goodConnectEnv (by decide) (by decide)

end BerndBox

namespace BerndBox

/-- Every result dispatched by sendResult without an override id is tagged
with the stored request id (omitted when empty). -/
theorem sendResult_requestId (s1 : OtaState) (b : Bool) (st : String)
    (d : Detail) (rm : ResultMsg)
    (h : Event.resultSent rm ∈ sendResult s1 b st d none) :
    rm.requestId = if s1.request_id = "" then none
                   else some s1.request_id := by
  cases b
  · simp [sendResult] at h
  · simp [sendResult] at h
    subst h
    rfl

end BerndBox

namespace BerndBox

/-- Every result dispatched inside connectAndArm is tagged with the stored
request id of the state it was called with (omitted when empty). -/
theorem connectAndArm_tagged (s3 : OtaState) (env : HandleEnv)
    (u h5 : String) (wc : Bool) (rm : ResultMsg)
    (hm : Event.resultSent rm ∈ (connectAndArm s3 env u h5 wc).2) :
    rm.requestId = if s3.request_id = "" then none
                   else some s3.request_id := by
  simp only [connectAndArm] at hm
  split_ifs at hm <;> simp at hm <;>
    exact sendResult_requestId _ _ _ _ _ hm

/-- The state returned by connectAndArm keeps the stored request id. -/
theorem connectAndArm_request_id (s3 : OtaState) (env : HandleEnv)
    (u h5 : String) (wc : Bool) :
    (connectAndArm s3 env u h5 wc).1.request_id = s3.request_id := by
  simp only [connectAndArm]
  split_ifs <;> rfl

/-- C10 amended: for every update command received while NO session is
active, the stored request id is overwritten with the new command's request
id (empty when the command carries none) before any field validation runs,
it is never rolled back in any branch, and every result emitted by the
handler — including every validation failure — is tagged with that new id
(omitted when empty). An in-progress session, by contrast, leaves the
stored id untouched (see the counterexample). -/
theorem c10_request_id_amended (s : OtaState) (m : Message) (cmd : UpdateCmd)
    (env : HandleEnv) (hu : m.update = some cmd)
    (hr : s.is_updating = false) :
    (handleCallback s m env).1.request_id = m.requestId.getD "" ∧
    ∀ rm, Event.resultSent rm ∈ (handleCallback s m env).2 →
      rm.requestId = (if m.requestId.getD "" = "" then none
                      else some (m.requestId.getD "")) := by
  have hov : ∀ s1 : OtaState, s1.request_id = m.requestId.getD "" →
      ∀ b st d rm, Event.resultSent rm ∈ sendResult s1 b st d none →
      rm.requestId = (if m.requestId.getD "" = "" then none
                      else some (m.requestId.getD "")) := by
    intro s1 h1 b st d rm hm
    rw [← h1]
    exact sendResult_requestId s1 b st d rm hm
  constructor
  · simp only [handleCallback, hu, hr]
    simp only [Bool.false_eq_true, if_false]
    split_ifs <;>
      first
      | rfl
      | (rw [connectAndArm_request_id])
  · intro rm hm
    simp only [handleCallback, hu, hr] at hm
    simp only [Bool.false_eq_true, if_false] at hm
    split_ifs at hm <;> (try simp at hm) <;>
      first
      | exact hov _ rfl _ _ _ rm hm
      | simpa using connectAndArm_tagged _ env _ _ _ rm hm

end BerndBox

namespace BerndBox

/-- C10 witness: the amended statement applied to a fresh updater and the
concrete second command. -/
theorem c10_witness :
    (handleCallback initState secondCommandMessage goodConnectEnv).1.request_id =
      secondCommandMessage.requestId.getD "" ∧
    ∀ rm, Event.resultSent rm ∈
        (handleCallback initState secondCommandMessage goodConnectEnv).2 →
      rm.requestId = (if secondCommandMessage.requestId.getD "" = "" then none
                      else some (secondCommandMessage.requestId.getD "")) :=
  c10_request_id_amended initState secondCommandMessage secondCommandCmd
    goodConnectEnv rfl rfl

/-- C8: for every update command that passes validation (with the Server
present for result emission), a transport-open failure yields exactly one
fail result "Failed to connect" and aborts, and a non-200 response yields
exactly one fail result whose detail embeds the code, and aborts; in both
cases the state keeps its buffer, active flag and tick registration exactly
as they were (no session is created), only the request id, size and restart
fields having been recorded. -/
theorem c8_connect_and_http_failures (s : OtaState) (m : Message)
    (cmd : UpdateCmd) (env : HandleEnv) (u h5 : String) (n : Nat) (b : Bool)
    (hu : m.update = some cmd) (hup : s.is_updating = false)
    (hurl : cmd.url = .str u) (hsz : cmd.size = .uint n)
    (hmd5 : cmd.md5 = .str h5) (hres : cmd.restart = .boolean b)
    (hsrv : env.serverAvailable = true) :
    (env.connectOk = false →
      handleCallback s m env =
        ({ s with request_id := m.requestId.getD "", image_size := n,
                  restart := b },
         [Event.clientBegin u (decide (u = "https")),
          Event.resultSent
            ⟨(if m.requestId.getD "" = "" then none
              else some (m.requestId.getD "")),
             status_fail_, some (.text failed_to_connect_error_)⟩])) ∧
    (env.connectOk = true → env.statusCode ≠ 200 →
      handleCallback s m env =
        ({ s with request_id := m.requestId.getD "", image_size := n,
                  restart := b },
         [Event.clientBegin u (decide (u = "https")), Event.clientGET,
          Event.resultSent
            ⟨(if m.requestId.getD "" = "" then none
              else some (m.requestId.getD "")),
             status_fail_,
             some (.errorResult otaType
               (http_code_error_ ++ toString env.statusCode))⟩])) := by
  constructor
  · intro hconn
    by_cases hhttps : u = "https" <;>
      simp +decide [handleCallback, hu, hup, hurl, hsz, hmd5, hres, hsrv,
        hconn, hhttps, connectAndArm, sendResult, JsonVal.isStr,
        JsonVal.asStr, JsonVal.isUint, JsonVal.asUint, JsonVal.isBool,
        JsonVal.asBool, Detail.isEmptyText, failed_to_connect_error_]
  · intro hconn hcode
    by_cases hhttps : u = "https" <;>
      simp +decide [handleCallback, hu, hup, hurl, hsz, hmd5, hres, hsrv,
        hconn, hcode, hhttps, connectAndArm, sendResult, JsonVal.isStr,
        JsonVal.asStr, JsonVal.isUint, JsonVal.asUint, JsonVal.isBool,
        JsonVal.asBool, Detail.isEmptyText]

end BerndBox

namespace BerndBox

/-- OnTaskDisable never changes the restart flag itself. -/
theorem onTaskDisable_restart (t : OtaState) :
    (onTaskDisable t).1.restart = t.restart := by
  unfold onTaskDisable
  split_ifs <;> rfl

theorem onTaskDisable_restarted (t : OtaState) :
    (onTaskDisable t).1.restarted = (t.restart || t.restarted) := by
  unfold onTaskDisable
  split_ifs with h <;> simp [h]

theorem onTaskDisable_bufferSize (t : OtaState) :
    (onTaskDisable t).1.bufferSize = if t.restart then t.bufferSize else 0 := by
  unfold onTaskDisable
  split_ifs <;> rfl

theorem onTaskDisable_is_updating (t : OtaState) :
    (onTaskDisable t).1.is_updating =
      if t.restart then t.is_updating else false := by
  unfold onTaskDisable
  split_ifs <;> rfl

theorem onTaskDisable_request_id (t : OtaState) :
    (onTaskDisable t).1.request_id =
      if t.restart then t.request_id else "" := by
  unfold onTaskDisable
  split_ifs <;> rfl

theorem onTaskDisable_last_percent (t : OtaState) :
    (onTaskDisable t).1.last_percent_update =
      if t.restart then t.last_percent_update else -1 := by
  unfold onTaskDisable
  split_ifs <;> rfl

theorem onTaskDisable_enabled (t : OtaState) :
    (onTaskDisable t).1.enabled = t.enabled := by
  unfold onTaskDisable
  split_ifs <;> rfl

/-- progressReport only ever changes last_percent_update. -/
theorem progressReport_restart (s : OtaState) (b : Bool) (n : Nat) :
    (progressReport s b n).1.restart = s.restart := by
  unfold progressReport
  dsimp only
  split_ifs <;> rfl

theorem progressReport_restarted (s : OtaState) (b : Bool) (n : Nat) :
    (progressReport s b n).1.restarted = s.restarted := by
  unfold progressReport
  dsimp only
  split_ifs <;> rfl

theorem progressReport_bufferSize (s : OtaState) (b : Bool) (n : Nat) :
    (progressReport s b n).1.bufferSize = s.bufferSize := by
  unfold progressReport
  dsimp only
  split_ifs <;> rfl

theorem progressReport_is_updating (s : OtaState) (b : Bool) (n : Nat) :
    (progressReport s b n).1.is_updating = s.is_updating := by
  unfold progressReport
  dsimp only
  split_ifs <;> rfl

theorem progressReport_request_id (s : OtaState) (b : Bool) (n : Nat) :
    (progressReport s b n).1.request_id = s.request_id := by
  unfold progressReport
  dsimp only
  split_ifs <;> rfl

theorem progressReport_enabled (s : OtaState) (b : Bool) (n : Nat) :
    (progressReport s b n).1.enabled = s.enabled := by
  unfold progressReport
  dsimp only
  split_ifs <;> rfl

/-- finishUpdate always closes the connection first and finalizes second. -/
theorem finishUpdate_events (s2 : OtaState) (env : TickEnv) :
    ∃ rest, (finishUpdate s2 env).2 =
      Event.clientEnd :: Event.flashEnd :: rest := by
  unfold finishUpdate
  split_ifs <;> exact ⟨_, rfl⟩

/-- A tick on a valid stream with available bytes that completes the image
is the write followed by the optional progress report and finishUpdate. -/
theorem taskCallback_complete (s : OtaState) (env : TickEnv)
    (hstream : env.streamValid = true) (havail : env.available = true)
    (hdone : s.flashProgress + env.bytesRead = s.image_size) :
    taskCallback s env =
      ((finishUpdate (progressReport
          { s with flashProgress := s.flashProgress + env.bytesRead }
          env.serverAvailable env.bytesRead).1 env).1,
       Event.flashWrite env.bytesRead ::
         (progressReport
           { s with flashProgress := s.flashProgress + env.bytesRead }
           env.serverAvailable env.bytesRead).2 ++
         (finishUpdate (progressReport
           { s with flashProgress := s.flashProgress + env.bytesRead }
           env.serverAvailable env.bytesRead).1 env).2) := by
  unfold taskCallback
  dsimp only
  simp [hstream, havail, hdone]

end BerndBox

namespace BerndBox

/-- C3: when, after a write, the flashing primitive reports the image
complete, the connection is closed immediately before the primitive is
finalized; on finalize success the "finish" result (empty detail, i.e. the
detail key omitted) is emitted and the session's restart_intent is retained
(the teardown then restarts exactly when it was requested); on finalize
failure the fail result carries the primitive's error text and
restart_intent is forced to false regardless of its original value; in both
branches the periodic tick is deregistered and teardown follows. -/
theorem c3_completion_close_finalize (s : OtaState) (env : TickEnv)
    (hstream : env.streamValid = true) (havail : env.available = true)
    (hdone : s.flashProgress + env.bytesRead = s.image_size)
    (hres0 : s.restarted = false) :
    (∃ l1 l2, (taskCallback s env).2 =
        l1 ++ Event.clientEnd :: Event.flashEnd :: l2) ∧
    (env.flashEndOk = true →
      (env.serverAvailable = true →
        ∃ rid, Event.resultSent ⟨rid, status_finish_, none⟩ ∈
          (taskCallback s env).2) ∧
      (taskCallback s env).1.restart = s.restart ∧
      (s.restart = true → (taskCallback s env).1.restarted = true) ∧
      (s.restart = false → (taskCallback s env).1.bufferSize = 0 ∧
        (taskCallback s env).1.is_updating = false ∧
        (taskCallback s env).1.restarted = false)) ∧
    (env.flashEndOk = false →
      (env.serverAvailable = true →
        ∃ rid, Event.resultSent ⟨rid, status_fail_,
          some (.updateError env.flashError)⟩ ∈ (taskCallback s env).2) ∧
      (taskCallback s env).1.restart = false ∧
      (taskCallback s env).1.restarted = false ∧
      (taskCallback s env).1.bufferSize = 0 ∧
      (taskCallback s env).1.is_updating = false) ∧
    (taskCallback s env).1.enabled = false := by
  rw [taskCallback_complete s env hstream havail hdone]
  refine ⟨?_, ?_, ?_, ?_⟩
  · obtain ⟨rest, hrest⟩ := finishUpdate_events
      (progressReport { s with flashProgress := s.flashProgress + env.bytesRead }
        env.serverAvailable env.bytesRead).1 env
    exact ⟨Event.flashWrite env.bytesRead ::
      (progressReport { s with flashProgress := s.flashProgress + env.bytesRead }
        env.serverAvailable env.bytesRead).2, rest, by simp [hrest]⟩
  · intro hok
    refine ⟨?_, ?_, ?_, ?_⟩
    · intro hsrv
      refine ⟨if (progressReport
          { s with flashProgress := s.flashProgress + env.bytesRead }
          env.serverAvailable env.bytesRead).1.request_id = "" then none
        else some (progressReport
          { s with flashProgress := s.flashProgress + env.bytesRead }
          env.serverAvailable env.bytesRead).1.request_id, ?_⟩
      simp only [finishUpdate, hok, sendResult, hsrv]
      simp +decide
    · simp [finishUpdate, hok, onTaskDisable_restart, progressReport_restart]
    · intro hre
      simp [finishUpdate, hok, onTaskDisable_restarted,
        progressReport_restart, progressReport_restarted, hre]
    · intro hre
      simp [finishUpdate, hok, onTaskDisable_bufferSize,
        onTaskDisable_is_updating, onTaskDisable_restarted,
        progressReport_restart, progressReport_restarted,
        progressReport_bufferSize, progressReport_is_updating, hre, hres0]
  · intro hok
    refine ⟨?_, ?_, ?_, ?_, ?_⟩
    · intro hsrv
      refine ⟨if (progressReport
          { s with flashProgress := s.flashProgress + env.bytesRead }
          env.serverAvailable env.bytesRead).1.request_id = "" then none
        else some (progressReport
          { s with flashProgress := s.flashProgress + env.bytesRead }
          env.serverAvailable env.bytesRead).1.request_id, ?_⟩
      simp only [finishUpdate, hok, Bool.false_eq_true, if_false,
        sendResult, hsrv]
      simp +decide [Detail.isEmptyText]
    · simp [finishUpdate, hok, onTaskDisable_restart]
    · simp [finishUpdate, hok, onTaskDisable_restarted,
        progressReport_restarted, hres0]
    · simp [finishUpdate, hok, onTaskDisable_bufferSize]
    · simp [finishUpdate, hok, onTaskDisable_is_updating]
  · cases hok : env.flashEndOk <;>
      simp [finishUpdate, hok, onTaskDisable_enabled]

end BerndBox

namespace BerndBox

/-- C3 witness: a concrete completing tick (100 of 100 bytes, finalize
succeeds) pushed through the theorem. -/
theorem c3_witness :
    (∃ l1 l2, (taskCallback session100
        { streamValid := true, available := true, bytesRead := 100,
          flashEndOk := true, flashError := "", serverAvailable := true }).2 =
        l1 ++ Event.clientEnd :: Event.flashEnd :: l2) ∧
    ((true : Bool) = true →
      ((true : Bool) = true →
        ∃ rid, Event.resultSent ⟨rid, status_finish_, none⟩ ∈
          (taskCallback session100
            { streamValid := true, available := true, bytesRead := 100,
              flashEndOk := true, flashError := "",
              serverAvailable := true }).2) ∧
      (taskCallback session100
        { streamValid := true, available := true, bytesRead := 100,
          flashEndOk := true, flashError := "",
          serverAvailable := true }).1.restart = session100.restart ∧
      (session100.restart = true →
        (taskCallback session100
          { streamValid := true, available := true, bytesRead := 100,
            flashEndOk := true, flashError := "",
            serverAvailable := true }).1.restarted = true) ∧
      (session100.restart = false →
        (taskCallback session100
          { streamValid := true, available := true, bytesRead := 100,
            flashEndOk := true, flashError := "",
            serverAvailable := true }).1.bufferSize = 0 ∧
        (taskCallback session100
          { streamValid := true, available := true, bytesRead := 100,
            flashEndOk := true, flashError := "",
            serverAvailable := true }).1.is_updating = false ∧
        (taskCallback session100
          { streamValid := true, available := true, bytesRead := 100,
            flashEndOk := true, flashError := "",
            serverAvailable := true }).1.restarted = false)) ∧
    ((true : Bool) = false →
      ((true : Bool) = true →
        ∃ rid, Event.resultSent ⟨rid, status_fail_,
          some (.updateError "")⟩ ∈
          (taskCallback session100
            { streamValid := true, available := true, bytesRead := 100,
              flashEndOk := true, flashError := "",
              serverAvailable := true }).2) ∧
      (taskCallback session100
        { streamValid := true, available := true, bytesRead := 100,
          flashEndOk := true, flashError := "",
          serverAvailable := true }).1.restart = false ∧
      (taskCallback session100
        { streamValid := true, available := true, bytesRead := 100,
          flashEndOk := true, flashError := "",
          serverAvailable := true }).1.restarted = false ∧
      (taskCallback session100
        { streamValid := true, available := true, bytesRead := 100,
          flashEndOk := true, flashError := "",
          serverAvailable := true }).1.bufferSize = 0 ∧
      (taskCallback session100
        { streamValid := true, available := true, bytesRead := 100,
          flashEndOk := true, flashError := "",
          serverAvailable := true }).1.is_updating = false) ∧
    (taskCallback session100
      { streamValid := true, available := true, bytesRead := 100,
        flashEndOk := true, flashError := "",
        serverAvailable := true }).1.enabled = false :=
  c3_completion_close_finalize session100
    { streamValid := true, available := true, bytesRead := 100,
      flashEndOk := true, flashError := "", serverAvailable := true }
    rfl rfl rfl rfl

/-- No path of sendResult reaches the restart primitive. -/
theorem espRestart_not_in_sendResult (s : OtaState) (b : Bool) (st : String)
    (d : Detail) (o : Option String) :
    Event.espRestart ∉ sendResult s b st d o := by
  cases b <;> simp [sendResult]

/-- No path of progressReport reaches the restart primitive. -/
theorem espRestart_not_in_progressReport (s : OtaState) (b : Bool) (n : Nat) :
    Event.espRestart ∉ (progressReport s b n).2 := by
  cases b <;>
    (unfold progressReport
     dsimp only
     split_ifs <;> simp [sendResult])

end BerndBox

namespace BerndBox

/-- C9 amended: teardown runs exactly once at every session end (stream loss
or completion), but the restart check comes FIRST: when the restart flag is
still set at teardown the device sleeps 1500 ms and restarts with the
buffer, request id, sentinel and updating flag left untouched (the resets
are skipped because esp_restart never returns); only when no restart is due
are the buffer released, the request id cleared, the sentinel restored and
the active flag cleared, and then no restart happens. -/
theorem c9_teardown_amended (s : OtaState) (env : TickEnv)
    (hres0 : s.restarted = false)
    (hend : env.streamValid = false ∨
      (env.streamValid = true ∧ env.available = true ∧
       s.flashProgress + env.bytesRead = s.image_size)) :
    (taskCallback s env).1.enabled = false ∧
    ((if env.streamValid = false then s.restart
      else if env.flashEndOk then s.restart else false) = true →
      (taskCallback s env).1.restarted = true ∧
      (taskCallback s env).1.bufferSize = s.bufferSize ∧
      (taskCallback s env).1.is_updating = s.is_updating ∧
      (taskCallback s env).1.request_id = s.request_id ∧
      ∃ l, (taskCallback s env).2 =
        l ++ [Event.delayMs 1500, Event.espRestart]) ∧
    ((if env.streamValid = false then s.restart
      else if env.flashEndOk then s.restart else false) = false →
      (taskCallback s env).1.restarted = false ∧
      (taskCallback s env).1.bufferSize = 0 ∧
      (taskCallback s env).1.request_id = "" ∧
      (taskCallback s env).1.last_percent_update = -1 ∧
      (taskCallback s env).1.is_updating = false ∧
      Event.espRestart ∉ (taskCallback s env).2) := by
  rcases hend with hstream0 | ⟨hstream, havail, hdone⟩
  · cases hre : s.restart
    · refine ⟨?_, ?_, ?_⟩
      · simp [taskCallback, hstream0, onTaskDisable, hre]
      · intro hcontra
        simp [hstream0, hre] at hcontra
      · intro
        refine ⟨?_, ?_, ?_, ?_, ?_, ?_⟩ <;>
          simp [taskCallback, hstream0, onTaskDisable, hre, hres0,
            espRestart_not_in_sendResult]
    · refine ⟨?_, ?_, ?_⟩
      · simp [taskCallback, hstream0, onTaskDisable, hre]
      · intro
        refine ⟨?_, ?_, ?_, ?_, ?_⟩ <;>
          simp [taskCallback, hstream0, onTaskDisable, hre]
      · intro hcontra
        simp [hstream0, hre] at hcontra
  · rw [taskCallback_complete s env hstream havail hdone]
    cases hok : env.flashEndOk
    · refine ⟨?_, ?_, ?_⟩
      · simp [finishUpdate, hok, onTaskDisable_enabled]
      · intro hcontra
        rw [hstream] at hcontra
        simp [hok] at hcontra
      · intro
        refine ⟨?_, ?_, ?_, ?_, ?_, ?_⟩
        · simp [finishUpdate, hok, onTaskDisable_restarted,
            progressReport_restarted, hres0]
        · simp [finishUpdate, hok, onTaskDisable_bufferSize]
        · simp [finishUpdate, hok, onTaskDisable_request_id]
        · simp [finishUpdate, hok, onTaskDisable_last_percent]
        · simp [finishUpdate, hok, onTaskDisable_is_updating]
        · simp [finishUpdate, hok, onTaskDisable,
            espRestart_not_in_sendResult,
            espRestart_not_in_progressReport]
    · cases hre : s.restart
      · refine ⟨?_, ?_, ?_⟩
        · simp [finishUpdate, hok, onTaskDisable_enabled]
        · intro hcontra
          rw [hstream] at hcontra
          simp [hok, hre] at hcontra
        · intro
          refine ⟨?_, ?_, ?_, ?_, ?_, ?_⟩
          · simp [finishUpdate, hok, onTaskDisable_restarted,
              progressReport_restart, progressReport_restarted, hre, hres0]
          · simp [finishUpdate, hok, onTaskDisable_bufferSize,
              progressReport_restart, hre]
          · simp [finishUpdate, hok, onTaskDisable_request_id,
              progressReport_restart, hre]
          · simp [finishUpdate, hok, onTaskDisable_last_percent,
              progressReport_restart, hre]
          · simp [finishUpdate, hok, onTaskDisable_is_updating,
              progressReport_restart, hre]
          · simp [finishUpdate, hok, onTaskDisable,
              progressReport_restart, hre,
              espRestart_not_in_sendResult,
              espRestart_not_in_progressReport]
      · refine ⟨?_, ?_, ?_⟩
        · simp [finishUpdate, hok, onTaskDisable_enabled]
        · intro
          refine ⟨?_, ?_, ?_, ?_, ?_⟩
          · simp [finishUpdate, hok, onTaskDisable_restarted,
              progressReport_restart, hre]
          · simp [finishUpdate, hok, onTaskDisable_bufferSize,
              progressReport_restart, progressReport_bufferSize, hre]
          · simp [finishUpdate, hok, onTaskDisable_is_updating,
              progressReport_restart, progressReport_is_updating, hre]
          · simp [finishUpdate, hok, onTaskDisable_request_id,
              progressReport_restart, progressReport_request_id, hre]
          · refine ⟨Event.flashWrite env.bytesRead ::
              (progressReport
                { s with flashProgress := s.flashProgress + env.bytesRead }
                env.serverAvailable env.bytesRead).2 ++
              Event.clientEnd :: Event.flashEnd ::
              sendResult (progressReport
                { s with flashProgress := s.flashProgress + env.bytesRead }
                env.serverAvailable env.bytesRead).1 env.serverAvailable
                status_finish_ (.text "") none, ?_⟩
            simp [finishUpdate, hok, onTaskDisable, progressReport_restart,
              hre]
        · intro hcontra
          rw [hstream] at hcontra
          simp [hok, hre] at hcontra

end BerndBox

namespace BerndBox

/-- C9 witness: the amended teardown statement at the concrete
restart-requested session losing its stream. -/
theorem c9_witness :
    (taskCallback sessionRestartTrue lostStreamEnv).1.enabled = false ∧
    ((if lostStreamEnv.streamValid = false then sessionRestartTrue.restart
      else if lostStreamEnv.flashEndOk then sessionRestartTrue.restart
      else false) = true →
      (taskCallback sessionRestartTrue lostStreamEnv).1.restarted = true ∧
      (taskCallback sessionRestartTrue lostStreamEnv).1.bufferSize =
        sessionRestartTrue.bufferSize ∧
      (taskCallback sessionRestartTrue lostStreamEnv).1.is_updating =
        sessionRestartTrue.is_updating ∧
      (taskCallback sessionRestartTrue lostStreamEnv).1.request_id =
        sessionRestartTrue.request_id ∧
      ∃ l, (taskCallback sessionRestartTrue lostStreamEnv).2 =
        l ++ [Event.delayMs 1500, Event.espRestart]) ∧
    ((if lostStreamEnv.streamValid = false then sessionRestartTrue.restart
      else if lostStreamEnv.flashEndOk then sessionRestartTrue.restart
      else false) = false →
      (taskCallback sessionRestartTrue lostStreamEnv).1.restarted = false ∧
      (taskCallback sessionRestartTrue lostStreamEnv).1.bufferSize = 0 ∧
      (taskCallback sessionRestartTrue lostStreamEnv).1.request_id = "" ∧
      (taskCallback sessionRestartTrue lostStreamEnv).1.last_percent_update = -1 ∧
      (taskCallback sessionRestartTrue lostStreamEnv).1.is_updating = false ∧
      Event.espRestart ∉ (taskCallback sessionRestartTrue lostStreamEnv).2) :=
  c9_teardown_amended sessionRestartTrue lostStreamEnv rfl (Or.inl rfl)

/-- The progress detail text is never the empty string. -/
theorem progressDetail_not_empty (p : Int) :
    Detail.isEmptyText (.text ("\x7bdone:" ++ toString p ++ "%\x7d")) =
      false := by
  have hne : ("\x7bdone:" ++ toString p ++ "%\x7d") ≠ "" := by
    intro h
    have hd : ("\x7bdone:" ++ toString p ++ "%\x7d").data = [] := by
      rw [h]
    simp [String.data_append] at hd
  simp [Detail.isEmptyText, hne]

/-- progressReport on a non-zero read, as an explicit case split. -/
theorem progressReport_spec (s1 : OtaState) (b : Bool) (n : Nat)
    (hn : n ≠ 0) :
    progressReport s1 b n =
      if s1.last_percent_update < 0 ∨ s1.last_percent_update + 10 ≤
          percentCode s1.flashProgress s1.image_size then
        ({ s1 with last_percent_update :=
             percentCode s1.flashProgress s1.image_size },
         sendResult
           { s1 with last_percent_update :=
               percentCode s1.flashProgress s1.image_size } b
           status_updating_
           (.text ("\x7bdone:" ++
             toString (percentCode s1.flashProgress s1.image_size) ++
             "%\x7d")) none)
      else (s1, []) := by
  unfold progressReport
  dsimp only
  simp [hn]

/-- progressReport on a zero read is a no-op. -/
theorem progressReport_zero (s1 : OtaState) (b : Bool) :
    progressReport s1 b 0 = (s1, []) := by
  unfold progressReport
  dsimp only
  simp

/-- No result with status "updating" is emitted by the completion block. -/
theorem updating_not_in_finishUpdate (s2 : OtaState) (env : TickEnv)
    (rid : Option String) (d : Option Detail) :
    Event.resultSent ⟨rid, status_updating_, d⟩ ∉ (finishUpdate s2 env).2 := by
  unfold finishUpdate
  cases hsrv : env.serverAvailable <;>
    split_ifs <;>
      simp +decide [sendResult, hsrv, onTaskDisable] <;>
        split_ifs <;> simp +decide

end BerndBox

namespace BerndBox

/-- A tick on a valid stream with available bytes that does not complete the
image is the write followed by the optional progress report. -/
theorem taskCallback_stream (s : OtaState) (env : TickEnv)
    (hstream : env.streamValid = true) (havail : env.available = true)
    (hnd : s.flashProgress + env.bytesRead ≠ s.image_size) :
    taskCallback s env =
      ((progressReport
          { s with flashProgress := s.flashProgress + env.bytesRead }
          env.serverAvailable env.bytesRead).1,
       Event.flashWrite env.bytesRead ::
         (progressReport
           { s with flashProgress := s.flashProgress + env.bytesRead }
           env.serverAvailable env.bytesRead).2) := by
  unfold taskCallback
  dsimp only
  simp [hstream, havail, hnd]

/-- C7 amended: on every tick with a valid stream, available data and a
non-zero read, an "updating" result is emitted exactly when the sentinel -1
is stored or the percent advanced by at least 10, and its detail is the
literal text for that percent — where the percent is the one the code
computes in binary32 floating point from the written bytes and image_size,
which can differ from floor(bytes / size * 100) (see the counterexample).
Zero-byte reads never emit an "updating" result. -/
theorem c7_progress_policy_amended (s : OtaState) (env : TickEnv)
    (hstream : env.streamValid = true) (hsrv : env.serverAvailable = true)
    (hlast : s.last_percent_update = -1 ∨ 0 ≤ s.last_percent_update) :
    (env.available = true → env.bytesRead ≠ 0 →
      ((∃ rid d, Event.resultSent ⟨rid, status_updating_, d⟩ ∈
          (taskCallback s env).2) ↔
        (s.last_percent_update = -1 ∨
         s.last_percent_update + 10 ≤
           percentCode (s.flashProgress + env.bytesRead) s.image_size)) ∧
      ∀ rid d, Event.resultSent ⟨rid, status_updating_, d⟩ ∈
          (taskCallback s env).2 →
        d = some (Detail.text ("\x7bdone:" ++
          toString (percentCode (s.flashProgress + env.bytesRead)
            s.image_size) ++ "%\x7d"))) ∧
    (env.bytesRead = 0 →
      ∀ rid d, Event.resultSent ⟨rid, status_updating_, d⟩ ∉
        (taskCallback s env).2) := by
  have hcond : (s.last_percent_update < 0 ∨
      s.last_percent_update + 10 ≤
        percentCode (s.flashProgress + env.bytesRead) s.image_size) ↔
      (s.last_percent_update = -1 ∨
       s.last_percent_update + 10 ≤
         percentCode (s.flashProgress + env.bytesRead) s.image_size) := by
    rcases hlast with h | h <;> constructor <;> rintro (h2 | h2) <;>
      first
      | (left; omega)
      | (right; exact h2)
  constructor
  · intro havail hbytes
    by_cases hdone : s.flashProgress + env.bytesRead = s.image_size
    · rw [taskCallback_complete s env hstream havail hdone,
        progressReport_spec _ env.serverAvailable env.bytesRead hbytes]
      by_cases hc : s.last_percent_update < 0 ∨
          s.last_percent_update + 10 ≤
            percentCode (s.flashProgress + env.bytesRead) s.image_size
      · constructor
        · refine iff_of_true ?_ (hcond.mp hc)
          refine ⟨if s.request_id = "" then none else some s.request_id,
            some (Detail.text ("\x7bdone:" ++
              toString (percentCode (s.flashProgress + env.bytesRead)
                s.image_size) ++ "%\x7d")), ?_⟩
          simp +decide [hc, sendResult, hsrv, progressDetail_not_empty]
        · intro rid d hd
          simp +decide [hc, sendResult, hsrv, progressDetail_not_empty,
            updating_not_in_finishUpdate] at hd
          tauto
      · constructor
        · refine iff_of_false ?_ ?_
          · rintro ⟨rid, d, hd⟩
            simp +decide [hc, updating_not_in_finishUpdate] at hd
          · rw [← hcond]
            exact hc
        · intro rid d hd
          simp +decide [hc, updating_not_in_finishUpdate] at hd
    · rw [taskCallback_stream s env hstream havail hdone,
        progressReport_spec _ env.serverAvailable env.bytesRead hbytes]
      by_cases hc : s.last_percent_update < 0 ∨
          s.last_percent_update + 10 ≤
            percentCode (s.flashProgress + env.bytesRead) s.image_size
      · constructor
        · refine iff_of_true ?_ (hcond.mp hc)
          refine ⟨if s.request_id = "" then none else some s.request_id,
            some (Detail.text ("\x7bdone:" ++
              toString (percentCode (s.flashProgress + env.bytesRead)
                s.image_size) ++ "%\x7d")), ?_⟩
          simp +decide [hc, sendResult, hsrv, progressDetail_not_empty]
        · intro rid d hd
          simp +decide [hc, sendResult, hsrv, progressDetail_not_empty] at hd
          tauto
      · constructor
        · refine iff_of_false ?_ ?_
          · rintro ⟨rid, d, hd⟩
            simp +decide [hc] at hd
          · rw [← hcond]
            exact hc
        · intro rid d hd
          simp +decide [hc] at hd
  · intro hzero rid d
    cases havail : env.available
    · have he : taskCallback s env = (s, []) := by
        unfold taskCallback
        simp [hstream, havail]
      simp [he]
    · by_cases hdone : s.flashProgress + env.bytesRead = s.image_size
      · rw [taskCallback_complete s env hstream havail hdone, hzero,
          progressReport_zero]
        intro hd
        simp [updating_not_in_finishUpdate] at hd
      · rw [taskCallback_stream s env hstream havail hdone, hzero,
          progressReport_zero]
        simp

end BerndBox

namespace BerndBox

/-- Splitting a decomposition of an appended trace at a distinguished
element: the element lies in the left or in the right part. -/
theorem append_cons_split {α : Type} {tr evs l1 l2 : List α} {a : α}
    (h : tr ++ evs = l1 ++ a :: l2) :
    (∃ l3, tr = l1 ++ a :: l3 ∧ l2 = l3 ++ evs) ∨
    (∃ l4, l1 = tr ++ l4 ∧ evs = l4 ++ a :: l2) := by
  rcases List.append_eq_append_iff.mp h with ⟨k, hc, hb⟩ | ⟨k, ha, hd⟩
  · exact Or.inr ⟨k, hc, hb⟩
  · rcases k with _ | ⟨x, k⟩
    · refine Or.inr ⟨[], by simpa using ha.symm, ?_⟩
      simpa using hd.symm
    · injection hd with h1 h2
      subst h1
      exact Or.inl ⟨k, ha, h2⟩

/-- Appending events preserves the trace discipline, provided the new events
contain no write (or hash and begin already happened) and respect the
begin-adjacency locally. -/
theorem wf_append (tr evs : List Event)
    (hwc : WriteCovered tr) (hba : BeginAdjacent tr)
    (hw : (∀ n, Event.flashWrite n ∉ evs) ∨ HashBeginIn tr)
    (hb : BeginAdjacent evs) :
    WriteCovered (tr ++ evs) ∧ BeginAdjacent (tr ++ evs) := by
  constructor
  · intro l1 l2 n h
    rcases append_cons_split h with ⟨l3, h1, _⟩ | ⟨l4, h1, h2⟩
    · exact hwc l1 l3 n h1
    · rcases hw with hnw | ⟨⟨h5, hh⟩, ⟨sz, hb2⟩⟩
      · refine absurd ?_ (hnw n)
        rw [h2]
        exact List.mem_append_right l4 (List.mem_cons_self _ _)
      · subst h1
        exact ⟨⟨h5, List.mem_append_left l4 hh⟩,
               ⟨sz, List.mem_append_left l4 hb2⟩⟩
  · intro l1 l2 sz h
    rcases append_cons_split h with ⟨l3, h1, _⟩ | ⟨l4, h1, h2⟩
    · exact hba l1 l3 sz h1
    · obtain ⟨h5, l0, hl⟩ := hb l4 l2 sz h2
      subst h1
      exact ⟨h5, tr ++ l0, by rw [hl, List.append_assoc]⟩

/-- A trace with no begin call is trivially begin-adjacent. -/
theorem beginAdjacent_of_no_begin (evs : List Event)
    (h : ∀ sz, Event.flashBegin sz ∉ evs) : BeginAdjacent evs := by
  intro l1 l2 sz he
  refine absurd ?_ (h sz)
  rw [he]
  exact List.mem_append_right _ (List.mem_cons_self _ _)

/-- sendResult never touches the flashing primitive. -/
theorem sendResult_flash_free (s : OtaState) (b : Bool) (st : String)
    (d : Detail) (o : Option String) :
    (∀ n, Event.flashWrite n ∉ sendResult s b st d o) ∧
    (∀ sz, Event.flashBegin sz ∉ sendResult s b st d o) ∧
    ∀ h5, Event.flashSetMD5 h5 ∉ sendResult s b st d o := by
  cases b <;> simp [sendResult]

/-- OnTaskDisable never touches the flashing primitive. -/
theorem onTaskDisable_flash_free (t : OtaState) :
    (∀ n, Event.flashWrite n ∉ (onTaskDisable t).2) ∧
    (∀ sz, Event.flashBegin sz ∉ (onTaskDisable t).2) := by
  unfold onTaskDisable
  split_ifs <;> simp

/-- progressReport never begins a flash session. -/
theorem progressReport_no_begin (s : OtaState) (b : Bool) (n : Nat) (sz : Nat) :
    Event.flashBegin sz ∉ (progressReport s b n).2 := by
  cases b <;>
    (unfold progressReport
     dsimp only
     split_ifs <;> simp [sendResult])

/-- finishUpdate never begins a flash session. -/
theorem finishUpdate_no_begin (s2 : OtaState) (env : TickEnv) (sz : Nat) :
    Event.flashBegin sz ∉ (finishUpdate s2 env).2 := by
  unfold finishUpdate
  cases hsrv : env.serverAvailable <;>
    split_ifs <;>
      simp [sendResult, hsrv, onTaskDisable] <;>
        split_ifs <;> simp

/-- The tick never begins a flash session: Update.begin is only called from
handleCallback. -/
theorem taskCallback_no_begin (s : OtaState) (env : TickEnv) (sz : Nat) :
    Event.flashBegin sz ∉ (taskCallback s env).2 := by
  unfold taskCallback
  dsimp only
  split_ifs <;>
    simp [sendResult_flash_free, onTaskDisable_flash_free,
      progressReport_no_begin, finishUpdate_no_begin]

end BerndBox

namespace BerndBox

theorem hashBeginIn_mono_left (tr evs : List Event) (h : HashBeginIn tr) :
    HashBeginIn (tr ++ evs) := by
  obtain ⟨⟨h5, h1⟩, ⟨sz, h2⟩⟩ := h
  exact ⟨⟨h5, List.mem_append_left evs h1⟩, ⟨sz, List.mem_append_left evs h2⟩⟩

theorem hashBeginIn_mono_right (tr evs : List Event) (h : HashBeginIn evs) :
    HashBeginIn (tr ++ evs) := by
  obtain ⟨⟨h5, h1⟩, ⟨sz, h2⟩⟩ := h
  exact ⟨⟨h5, List.mem_append_right tr h1⟩, ⟨sz, List.mem_append_right tr h2⟩⟩

/-- Within one connectAndArm call, the only begin event sits directly after
its set-hash event. -/
theorem connectAndArm_beginAdjacent (s3 : OtaState) (env : HandleEnv)
    (u h5 : String) (wc : Bool) :
    BeginAdjacent (connectAndArm s3 env u h5 wc).2 := by
  unfold connectAndArm
  split_ifs with h1 h2
  · apply beginAdjacent_of_no_begin
    intro sz hmem
    rcases List.mem_cons.mp hmem with h | h
    · simp at h
    · exact (sendResult_flash_free _ _ _ _ _).2.1 sz h
  · apply beginAdjacent_of_no_begin
    intro sz hmem
    rcases List.mem_cons.mp hmem with h | h
    · simp at h
    rcases List.mem_cons.mp h with h | h
    · simp at h
    · exact (sendResult_flash_free _ _ _ _ _).2.1 sz h
  · intro l1 l2 sz he
    rcases l1 with _ | ⟨e1, l1⟩
    · simp at he
    rcases l1 with _ | ⟨e2, l1⟩
    · simp at he
    rcases l1 with _ | ⟨e3, l1⟩
    · simp at he
    rcases l1 with _ | ⟨e4, l1⟩
    · simp only [List.cons_append, List.nil_append, List.cons.injEq] at he
      exact ⟨h5, [e1, e2], by simp [he.1, he.2.1, he.2.2.1]⟩
    · simp only [List.cons_append, List.cons.injEq] at he
      refine absurd ?_ ((sendResult_flash_free s3 env.serverAvailable
        status_start_ (.text "") none).2.1 sz)
      rw [he.2.2.2.2]
      exact List.mem_append_right l1 (List.mem_cons_self _ _)

/-- connectAndArm preserves the flashing-primitive trace discipline and
leaves an armed task only with hash and begin already recorded. -/
theorem flashInv_connectAndArm (s3 : OtaState) (env : HandleEnv)
    (u h5 : String) (wc : Bool) (tr : List Event)
    (hwc : WriteCovered tr) (hba : BeginAdjacent tr)
    (hen : s3.enabled = true → HashBeginIn tr) :
    FlashInv (connectAndArm s3 env u h5 wc).1
      (tr ++ (connectAndArm s3 env u h5 wc).2) := by
  have hbaevs := connectAndArm_beginAdjacent s3 env u h5 wc
  have hnw : ∀ n, Event.flashWrite n ∉ (connectAndArm s3 env u h5 wc).2 := by
    intro n
    unfold connectAndArm
    cases hsrv : env.serverAvailable <;>
      split_ifs <;> simp [sendResult, hsrv]
  obtain ⟨w1, w2⟩ := wf_append tr _ hwc hba (Or.inl hnw) hbaevs
  refine ⟨w1, w2, ?_⟩
  revert w1 w2
  unfold connectAndArm
  split_ifs with h1 h2
  · intro _ _ he
    exact hashBeginIn_mono_left _ _ (hen he)
  · intro _ _ he
    exact hashBeginIn_mono_left _ _ (hen he)
  · intro _ _ _
    refine hashBeginIn_mono_right _ _ ⟨⟨h5, ?_⟩, ⟨s3.image_size, ?_⟩⟩
    · simp
    · simp

/-- handleCallback preserves the flashing-primitive trace discipline. -/
theorem flashInv_handleCallback (s : OtaState) (m : Message) (env : HandleEnv)
    (tr : List Event) (h : FlashInv s tr) :
    FlashInv (handleCallback s m env).1 (tr ++ (handleCallback s m env).2) := by
  obtain ⟨hwc, hba, hen⟩ := h
  have wfsend : ∀ s0 : OtaState, ∀ b st d o,
      WriteCovered (tr ++ sendResult s0 b st d o) ∧
      BeginAdjacent (tr ++ sendResult s0 b st d o) :=
    fun s0 b st d o => wf_append tr _ hwc hba
      (Or.inl (sendResult_flash_free s0 b st d o).1)
      (beginAdjacent_of_no_begin _ (sendResult_flash_free s0 b st d o).2.1)
  cases hm : m.update with
  | none =>
    simp only [handleCallback, hm, List.append_nil]
    exact ⟨hwc, hba, hen⟩
  | some cmd =>
    cases hup : s.is_updating <;>
      simp only [handleCallback, hm, hup, Bool.false_eq_true, if_false,
        if_true]
    · split_ifs with g1 g2 g3 g4 g5 <;> (try dsimp only)
      · exact ⟨(wfsend _ _ _ _ _).1, (wfsend _ _ _ _ _).2,
          fun he => hashBeginIn_mono_left _ _ (hen he)⟩
      · exact ⟨(wfsend _ _ _ _ _).1, (wfsend _ _ _ _ _).2,
          fun he => hashBeginIn_mono_left _ _ (hen he)⟩
      · exact ⟨(wfsend _ _ _ _ _).1, (wfsend _ _ _ _ _).2,
          fun he => hashBeginIn_mono_left _ _ (hen he)⟩
      · exact ⟨(wfsend _ _ _ _ _).1, (wfsend _ _ _ _ _).2,
          fun he => hashBeginIn_mono_left _ _ (hen he)⟩
      · obtain ⟨w1, w2⟩ := wf_append tr [Event.serialServerMissing] hwc hba
          (Or.inl (by simp)) (beginAdjacent_of_no_begin _ (by simp))
        exact ⟨w1, w2, fun he => hashBeginIn_mono_left _ _ (hen he)⟩
      · exact flashInv_connectAndArm _ env _ _ _ tr hwc hba hen
      · exact flashInv_connectAndArm _ env _ _ _ tr hwc hba hen
    · exact ⟨(wfsend _ _ _ _ _).1, (wfsend _ _ _ _ _).2,
        fun he => hashBeginIn_mono_left _ _ (hen he)⟩

/-- The tick preserves the flashing-primitive trace discipline (the
scheduler only runs it on an armed task). -/
theorem flashInv_taskCallback (s : OtaState) (env : TickEnv)
    (tr : List Event) (h : FlashInv s tr) (hs : s.enabled = true) :
    FlashInv (taskCallback s env).1 (tr ++ (taskCallback s env).2) := by
  obtain ⟨hwc, hba, hen⟩ := h
  have hhb := hen hs
  obtain ⟨w1, w2⟩ := wf_append tr _ hwc hba (Or.inr hhb)
    (beginAdjacent_of_no_begin _ (fun sz => taskCallback_no_begin s env sz))
  exact ⟨w1, w2, fun _ => hashBeginIn_mono_left _ _ hhb⟩

/-- One step of the system preserves the trace discipline. -/
theorem flashInv_step (s : OtaState) (i : Input) (tr : List Event)
    (h : FlashInv s tr) : FlashInv (step s i).1 (tr ++ (step s i).2) := by
  cases hr : s.restarted <;>
    simp only [step, hr, Bool.false_eq_true, if_false, if_true]
  · cases i with
    | message m env => exact flashInv_handleCallback s m env tr h
    | tick env =>
      cases hs : s.enabled <;>
        simp only [hs, Bool.false_eq_true, if_false, if_true]
      · simpa using h
      · exact flashInv_taskCallback s env tr h hs
  · simpa using h

/-- Runs preserve the trace discipline. -/
theorem flashInv_run (inputs : List Input) (s : OtaState) (tr : List Event)
    (h : FlashInv s tr) :
    FlashInv (run s inputs).1 (tr ++ (run s inputs).2) := by
  induction inputs generalizing s tr with
  | nil => simpa [run] using h
  | cons i rest ih =>
    have h1 := flashInv_step s i tr h
    have h2 := ih (step s i).1 (tr ++ (step s i).2) h1
    simpa [run, List.append_assoc] using h2

end BerndBox

namespace BerndBox

/-- C2: over every run of the system from the initial state, each begin of a
flash write session immediately follows the setting of the expected content
hash, and no write to the flashing primitive ever occurs before both a hash
has been set and a write session begun. -/
theorem c2_hash_then_begin_before_write (inputs : List Input) :
    (∀ l1 l2 n, (run initState inputs).2 = l1 ++ Event.flashWrite n :: l2 →
      (∃ h5, Event.flashSetMD5 h5 ∈ l1) ∧ ∃ sz, Event.flashBegin sz ∈ l1) ∧
    (∀ l1 l2 sz, (run initState inputs).2 = l1 ++ Event.flashBegin sz :: l2 →
      ∃ h5 l0, l1 = l0 ++ [Event.flashSetMD5 h5]) := by
  have h0 : FlashInv initState [] := by
    refine ⟨?_, ?_, ?_⟩
    · intro l1 l2 n h
      cases l1 <;> simp at h
    · intro l1 l2 sz h
      cases l1 <;> simp at h
    · intro h
      exact absurd h (by decide)
  have hr := flashInv_run inputs initState [] h0
  rw [List.nil_append] at hr
  exact ⟨hr.1, hr.2.1⟩

/-- C2 witness: a concrete run (one accepted command, one 53-byte tick)
whose write is decomposed at its position. -/
theorem c2_witness :
    (∃ h5, Event.flashSetMD5 h5 ∈
      ([Event.clientBegin "https://example.com/fw.bin" false, Event.clientGET,
        Event.flashSetMD5 "abc123", Event.flashBegin 1000,
        Event.resultSent ⟨some "r1", status_start_, none⟩] : List Event)) ∧
    ∃ sz, Event.flashBegin sz ∈
      ([Event.clientBegin "https://example.com/fw.bin" false, Event.clientGET,
        Event.flashSetMD5 "abc123", Event.flashBegin 1000,
        Event.resultSent ⟨some "r1", status_start_, none⟩] : List Event) :=
  (c2_hash_then_begin_before_write
      [Input.message httpsUrlMessage goodConnectEnv, Input.tick read53Env]).1
    [Event.clientBegin "https://example.com/fw.bin" false, Event.clientGET,
     Event.flashSetMD5 "abc123", Event.flashBegin 1000,
     Event.resultSent ⟨some "r1", status_start_, none⟩]
    [Event.resultSent ⟨some "r1", status_updating_,
       some (Detail.text "\x7bdone:5%\x7d")⟩]
    53 (by decide)

/-- C7 witness: the amended progress policy at the concrete session reading
53 of 100 bytes, where the binary32 percent is 52. -/
theorem c7_witness :
    (read53Env.available = true → read53Env.bytesRead ≠ 0 →
      ((∃ rid d, Event.resultSent ⟨rid, status_updating_, d⟩ ∈
          (taskCallback session100 read53Env).2) ↔
        (session100.last_percent_update = -1 ∨
         session100.last_percent_update + 10 ≤
           percentCode (session100.flashProgress + read53Env.bytesRead)
             session100.image_size)) ∧
      ∀ rid d, Event.resultSent ⟨rid, status_updating_, d⟩ ∈
          (taskCallback session100 read53Env).2 →
        d = some (Detail.text ("\x7bdone:" ++
          toString (percentCode
            (session100.flashProgress + read53Env.bytesRead)
            session100.image_size) ++ "%\x7d"))) ∧
    (read53Env.bytesRead = 0 →
      ∀ rid d, Event.resultSent ⟨rid, status_updating_, d⟩ ∉
        (taskCallback session100 read53Env).2) :=
  c7_progress_policy_amended session100 read53Env rfl rfl (Or.inl rfl)

end BerndBox

namespace BerndBox

/-- C8 witness: a concrete validated command whose transport open fails,
evaluated through the theorem. -/
theorem c8_witness :
    handleCallback initState httpsUrlMessage
      { serverAvailable := true, rootCas := "", connectOk := false,
        statusCode := 0 } =
      ({ initState with request_id := "r1", image_size := 1000,
                        restart := true },
       [Event.clientBegin "https://example.com/fw.bin" false,
        Event.resultSent ⟨some "r1", status_fail_,
          some (.text failed_to_connect_error_)⟩]) :=
  (c8_connect_and_http_failures initState httpsUrlMessage httpsUrlCmd
      { serverAvailable := true, rootCas := "", connectOk := false,
        statusCode := 0 }
      "https://example.com/fw.bin" "abc123" 1000 true
      rfl rfl rfl rfl rfl rfl rfl).1 rfl

end BerndBox
